import Mathlib

/-!
Verification of the session/audio orchestration core of the
synrg-voice-agent-client repository.

The development shallowly embeds:
  * the reactive session store (`src/lib/store.ts`): the `Store` structure
    and its actions `addMessage`, `addToolCall`, `updateToolCall`, `reset`;
  * the data-message dispatcher and connection lifecycle of the
    `useLiveKitAgent` hook (`src/hooks/useLiveKitAgent.ts`): `HookState`,
    `handleDataMessage`, `connectCall`, `disconnect`, and the volume
    monitors `monitorOutput` / `monitorInput`;
  * the one-time readiness signal of the `App` component.

External effects (`Date.now()`, `generateId()`, JSON parsing, the analyser
byte samples) are modelled as explicit parameters supplied by the
environment.
-/

namespace SynrgVoice

/-- Agent visual state, `'listening' | 'thinking' | 'speaking'`; the source
also allows `null`, modelled as `Option AgentState` where it occurs. -/
inductive AgentState
  | listening
  | thinking
  | speaking
deriving DecidableEq

/-- Message role, `'user' | 'assistant'` (store.ts). -/
inductive Role
  | user
  | assistant
deriving DecidableEq

/-- A transcript entry (`Message` in store.ts): id, role, content,
timestamp. Timestamps are `Date.now()` values, modelled as `Nat`. -/
structure Message where
  id : String
  role : Role
  content : String
  timestamp : Nat
deriving DecidableEq

/-- Tool-call status, `'pending' | 'executing' | 'completed' | 'error'`
(store.ts). -/
inductive ToolStatus
  | pending
  | executing
  | completed
  | error
deriving DecidableEq

/-- A tool-call record (`ToolCall` in store.ts). The `arguments` and
`result` payloads are opaque to the client; they are modelled as optional
strings (`none` = the field is absent / undefined). -/
structure ToolCall where
  id : String
  name : String
  status : ToolStatus
  arguments : Option String
  result : Option String
  timestamp : Nat
deriving DecidableEq

/-- Audio playback status, `'waiting' | 'connecting' | 'playing' | 'error'`
(store.ts). -/
inductive AudioStatus
  | waiting
  | connecting
  | playing
  | error
deriving DecidableEq

/-- The session store state (`VoiceAgentStore` in store.ts). Volumes are
modelled as rationals. -/
structure Store where
  sessionId : Option String
  botId : Option String
  agentConnected : Bool
  audioStatus : AudioStatus
  agentState : Option AgentState
  inputVolume : ℚ
  outputVolume : ℚ
  messages : List Message
  toolCalls : List ToolCall
deriving DecidableEq

/-- The store's initial state (store.ts lines 57-66). -/
def initialStore : Store :=
  { sessionId := none
    botId := none
    agentConnected := false
    audioStatus := AudioStatus.waiting
    agentState := none
    inputVolume := 0
    outputVolume := 0
    messages := []
    toolCalls := [] }

/-- Store action `setAgentState` (store.ts line 73). -/
def setAgentState (s : Option AgentState) (st : Store) : Store :=
  { st with agentState := s }

/-- Store action `setInputVolume` (store.ts line 74). -/
def setInputVolume (v : ℚ) (st : Store) : Store :=
  { st with inputVolume := v }

/-- Store action `setOutputVolume` (store.ts line 75). -/
def setOutputVolume (v : ℚ) (st : Store) : Store :=
  { st with outputVolume := v }

/-- Store action `addMessage` (store.ts lines 77-87): appends a message,
filling in the generated id and the current time. `generateId()` and
`Date.now()` are environment effects, passed in as `freshId` and `now`. -/
def addMessage (role : Role) (content : String) (freshId : String)
    (now : Nat) (st : Store) : Store :=
  { st with messages :=
      st.messages ++ [{ id := freshId, role := role, content := content,
                        timestamp := now }] }

/-- The argument of `addToolCall`: a `ToolCall` without its timestamp
(`Omit<ToolCall, 'timestamp'>` in store.ts). -/
structure ToolCallInput where
  id : String
  name : String
  status : ToolStatus
  arguments : Option String
  result : Option String
deriving DecidableEq

/-- Store action `addToolCall` (store.ts lines 89-98): appends the record
unconditionally, stamping it with the current time. -/
def addToolCall (tc : ToolCallInput) (now : Nat) (st : Store) : Store :=
  { st with toolCalls :=
      st.toolCalls ++ [{ id := tc.id, name := tc.name, status := tc.status,
                         arguments := tc.arguments, result := tc.result,
                         timestamp := now }] }

/-- The update object taken by `updateToolCall`: every field of `ToolCall`
optionally present (the TS type has all fields optional; the object spread
`\x7b ...tc, ...updates \x7d` overwrites exactly the present fields). -/
structure ToolCallUpdate where
  newId : Option String := none
  newName : Option String := none
  newStatus : Option ToolStatus := none
  newArguments : Option (Option String) := none
  newResult : Option (Option String) := none
  newTimestamp : Option Nat := none
deriving DecidableEq

/-- The object spread `\x7b ...tc, ...updates \x7d` applied to one record:
each field present in the update replaces the record's field. -/
def applyToolCallUpdate (u : ToolCallUpdate) (tc : ToolCall) : ToolCall :=
  { id := u.newId.getD tc.id
    name := u.newName.getD tc.name
    status := u.newStatus.getD tc.status
    arguments := u.newArguments.getD tc.arguments
    result := u.newResult.getD tc.result
    timestamp := u.newTimestamp.getD tc.timestamp }

/-- Store action `updateToolCall` (store.ts lines 100-105): maps over the
list, merging the update into every record whose id matches; no check of
the record's current status is made. -/
def updateToolCall (cid : String) (u : ToolCallUpdate) (st : Store) : Store :=
  { st with toolCalls :=
      st.toolCalls.map (fun tc =>
        if tc.id = cid then applyToolCallUpdate u tc else tc) }

/-- Store action `reset` (store.ts lines 113-124): sets every field back to
its initial value. -/
def resetStore (st : Store) : Store :=
  { st with
      sessionId := none
      botId := none
      agentConnected := false
      audioStatus := AudioStatus.waiting
      agentState := none
      inputVolume := 0
      outputVolume := 0
      messages := []
      toolCalls := [] }

/-- The connection state of the hook,
`'disconnected' | 'connecting' | 'connected' | 'reconnecting'`
(useLiveKitAgent.ts line 28). -/
inductive ConnState
  | disconnected
  | connecting
  | connected
  | reconnecting
deriving DecidableEq

/-- The LiveKit `Room`'s own connection state, as read through
`roomRef.current?.state`. -/
inductive RoomConnState
  | disconnected
  | connecting
  | connected
  | reconnecting
deriving DecidableEq

/-- The hook's mutable state: `roomRef` (with the room's connection state),
`audioContextRef` (open or not), the React `connectionState` and `error`
states, and the session store the hook writes to. -/
structure HookState where
  room : Option RoomConnState
  audioCtxOpen : Bool
  connectionState : ConnState
  hookError : Option String
  store : Store
deriving DecidableEq

/-- The hook's state on mount: no room, no audio context, disconnected, no
error, store at its defaults. -/
def initialHookState : HookState :=
  { room := none
    audioCtxOpen := false
    connectionState := ConnState.disconnected
    hookError := none
    store := initialStore }

/-- A decoded control-channel message (`AgentMessage` in
useLiveKitAgent.ts): a JSON object with a `type` discriminator (`none`
models an object whose `type` field is absent) and whatever other fields
the dispatcher reads, at the types the dispatcher casts them to. -/
structure AgentMessage where
  msgType : Option String
  state : Option AgentState := none
  volume : ℚ := 0
  text : String := ""
  callId : String := ""
  name : String := ""
  arguments : Option String := none
  result : Option String := none
  errorVal : Option String := none
  message : String := ""
deriving DecidableEq

/-- One invocation of the data-message handler: the parse result of the
payload (`none` models invalid UTF-8/JSON, where `JSON.parse` throws), plus
the environment values `generateId()` and `Date.now()` read during the
invocation. -/
structure DispatchInput where
  payload : Option AgentMessage
  freshId : String
  now : Nat
deriving DecidableEq

/-- The `type` values the dispatcher's switch recognizes
(useLiveKitAgent.ts lines 87-123). -/
def recognizedTypes : List String :=
  ["agent.state", "agent.volume", "transcript.user", "transcript.assistant",
   "tool.call", "tool.executing", "tool.completed", "tool.error", "error"]

/-- The handler `handleDataMessage` (useLiveKitAgent.ts lines 81-127).
A parse failure is caught: the catch block only logs, so the state is
returned unchanged. A missing `type` matches no switch case; an
unrecognized `type` reaches the default case, which only logs. The
`error` case records the message in the hook's error state (and invokes
the caller's callback, an external effect). -/
def handleDataMessage (inp : DispatchInput) (h : HookState) : HookState :=
  match inp.payload with
  | none => h
  | some m =>
    match m.msgType with
    | none => h
    | some t =>
      if t = "agent.state" then
        { h with store := setAgentState m.state h.store }
      else if t = "agent.volume" then
        { h with store := setOutputVolume m.volume h.store }
      else if t = "transcript.user" then
        { h with store := addMessage Role.user m.text inp.freshId inp.now h.store }
      else if t = "transcript.assistant" then
        { h with store := addMessage Role.assistant m.text inp.freshId inp.now h.store }
      else if t = "tool.call" then
        let tcIn : ToolCallInput :=
          { id := m.callId, name := m.name, status := ToolStatus.pending,
            arguments := m.arguments, result := none }
        { h with store := addToolCall tcIn inp.now h.store }
      else if t = "tool.executing" then
        let u : ToolCallUpdate := { newStatus := some ToolStatus.executing }
        { h with store := updateToolCall m.callId u h.store }
      else if t = "tool.completed" then
        let u : ToolCallUpdate :=
          { newStatus := some ToolStatus.completed, newResult := some m.result }
        { h with store := updateToolCall m.callId u h.store }
      else if t = "tool.error" then
        let u : ToolCallUpdate :=
          { newStatus := some ToolStatus.error, newResult := some m.errorVal }
        { h with store := updateToolCall m.callId u h.store }
      else if t = "error" then
        { h with hookError := some m.message }
      else h

/-- A sequence of data messages handled in arrival order. -/
def runMessages (inputs : List DispatchInput) (h : HookState) : HookState :=
  inputs.foldl (fun s i => handleDataMessage i s) h

/-- The idempotency guard of `connect` (useLiveKitAgent.ts lines 132-134):
the early return fires exactly when `roomRef.current?.state === 'connected'`. -/
def connectGuard (h : HookState) : Bool :=
  h.room = some RoomConnState.connected

/-- One call of `connect` (useLiveKitAgent.ts lines 130-141 and onward),
modelled up to the point where the transport connection is initiated: if
the guard fires, nothing happens; otherwise the call sets
`connectionState` to `connecting`, clears the error, opens a fresh audio
context, constructs a new `Room` and initiates `room.connect` (the room is
then in its `connecting` state). The returned flag records whether this
transport setup ran. -/
def connectCall (h : HookState) : HookState × Bool :=
  if connectGuard h then (h, false)
  else ({ h with connectionState := ConnState.connecting
                 hookError := none
                 audioCtxOpen := true
                 room := some RoomConnState.connecting }, true)

/-- `disconnect` (useLiveKitAgent.ts lines 533-544): disconnects and drops
the room if present, closes and drops the audio context if present, calls
the store's `reset`, and sets the connection state to `disconnected`. The
hook's `error` state is not touched. -/
def disconnect (h : HookState) : HookState :=
  { h with room := none
           audioCtxOpen := false
           store := resetStore h.store
           connectionState := ConnState.disconnected }

/-- The average of the analyser's byte frequency data,
`dataArray.reduce((a, b) => a + b) / dataArray.length`. Entries of a
`Uint8Array` are bytes, modelled as `Fin 256`. -/
def byteAverage (data : List (Fin 256)) : ℚ :=
  (data.map (fun b => (b.val : ℚ))).sum / data.length

/-- Normalization in `monitorOutput` (useLiveKitAgent.ts line 296):
`Math.min(1, avg / 128)`. -/
def outputNormalized (data : List (Fin 256)) : ℚ :=
  min 1 (byteAverage data / 128)

/-- Normalization in `monitorInput` (useLiveKitAgent.ts line 486):
`Math.min(1, avg / 128)`. -/
def inputNormalized (data : List (Fin 256)) : ℚ :=
  min 1 (byteAverage data / 128)

/-- The state a volume-monitor tick sees: the liveness of the monitored
track (`readyState === 'live'`) and the volume slot of the store it
writes. -/
structure MonitorState where
  live : Bool
  volume : ℚ
deriving DecidableEq

/-- One tick of `monitorOutput` (useLiveKitAgent.ts lines 291-307): if the
track is no longer live the function returns at once — no sample is taken,
the store is not written, and no next frame is requested (the flag);
otherwise it writes the normalized sample and schedules the next tick. -/
def monitorOutput (sample : List (Fin 256)) (s : MonitorState) :
    MonitorState × Bool :=
  if s.live then ({ s with volume := outputNormalized sample }, true)
  else (s, false)

/-- One tick of `monitorInput` (useLiveKitAgent.ts lines 478-504): same
structure as `monitorOutput`, writing the input-volume slot. -/
def monitorInput (sample : List (Fin 256)) (s : MonitorState) :
    MonitorState × Bool :=
  if s.live then ({ s with volume := inputNormalized sample }, true)
  else (s, false)

/-- The readiness conditions the `App` component's effect reads
(part of the unnamed App source, the readiness effect): `isConnected`,
`agentConnected`, and `audioStatus === 'playing'`. -/
structure ReadyInput where
  connected : Bool
  agentPresent : Bool
  audioPlaying : Bool
deriving DecidableEq

/-- `isReady = isConnected && agentConnected && audioStatus === 'playing'`. -/
def isReady (i : ReadyInput) : Bool :=
  i.connected && i.agentPresent && i.audioPlaying

/-- The state of the readiness effect: the `readinessSignaled` ref and the
global `window.voiceAgentReady` flag. -/
structure ReadyState where
  signaled : Bool
  voiceAgentReady : Bool
deriving DecidableEq

/-- The state of the readiness effect on page load: the ref starts false
and the global flag unset (modelled false). -/
def initialReadyState : ReadyState :=
  { signaled := false, voiceAgentReady := false }

/-- One run of the readiness effect: it always refreshes the global flag;
if ready and not yet signaled, it sets the ref and dispatches the one-time
`voiceAgentReady` event (the returned flag records the dispatch). -/
def readinessStep (s : ReadyState) (i : ReadyInput) : ReadyState × Bool :=
  let s1 : ReadyState := { s with voiceAgentReady := isReady i }
  if isReady i && !s.signaled then ({ s1 with signaled := true }, true)
  else (s1, false)

/-- The readiness-effect state after a sequence of condition changes. -/
def runReady (s : ReadyState) : List ReadyInput → ReadyState
  | [] => s
  | i :: rest => runReady (readinessStep s i).1 rest

/-- How many times the one-time event was dispatched over a sequence of
condition changes. -/
def fireCount (s : ReadyState) : List ReadyInput → Nat
  | [] => 0
  | i :: rest =>
    (if (readinessStep s i).2 then 1 else 0) + fireCount (readinessStep s i).1 rest

/-- C9: `disconnect()` with no prior `connect()` leaves the state unchanged
at `disconnected` with the store at its empty defaults; a second
`disconnect()` after a first changes nothing; and any already-disconnected
state (no room, no audio context, store at defaults, state `disconnected`)
is left unchanged. -/
theorem disconnect_idempotent_noop :
    disconnect initialHookState = initialHookState
    ∧ (∀ h : HookState, disconnect (disconnect h) = disconnect h)
    ∧ (∀ h : HookState, h.room = none → h.audioCtxOpen = false →
        h.store = initialStore →
        h.connectionState = ConnState.disconnected → disconnect h = h) := by
  refine ⟨rfl, fun h => rfl, fun h h1 h2 h3 h4 => ?_⟩
  cases h
  subst h1 h2 h3 h4
  rfl

/-- Witness for C9: an already-disconnected state that still records an
error message is left unchanged by `disconnect`. -/
theorem disconnect_idempotent_noop_witness :
    disconnect { initialHookState with hookError := some ("boom") }
      = { initialHookState with hookError := some ("boom") } :=
  disconnect_idempotent_noop.2.2 _ rfl rfl rfl rfl

/-- C2 counterexample: `connect` performs the transport setup whenever the
room is not yet in its `connected` state. A first call from the initial
state runs setup and leaves the room `connecting`; a second call made
while that first connect is still in flight runs setup a second time, so
transport setup is not performed exactly once. -/
theorem connect_while_connecting_repeats_setup :
    (connectCall initialHookState).2 = true
    ∧ ((connectCall initialHookState).1).room = some RoomConnState.connecting
    ∧ (connectCall (connectCall initialHookState).1).2 = true :=
  ⟨rfl, rfl, rfl⟩

/-- C2 amended: the second `connect` call is a no-op exactly when the room
has already reached the `connected` state; the guard does not cover a
still-connecting session. -/
theorem connect_noop_when_connected (h : HookState)
    (hc : h.room = some RoomConnState.connected) :
    connectCall h = (h, false) := by
  simp [connectCall, connectGuard, hc]

/-- Witness for the amended C2: calling `connect` against a connected room
changes nothing. -/
theorem connect_noop_when_connected_witness :
    connectCall { initialHookState with room := some RoomConnState.connected }
      = ({ initialHookState with room := some RoomConnState.connected }, false) :=
  connect_noop_when_connected _ rfl

/-- C5: for every nonempty frequency-data sample, the normalized loudness
written by both the output and the input volume monitor lies in [0, 1]. -/
theorem normalized_volume_unit_range
    (data : List (Fin 256)) (_hne : data ≠ []) :
    (0 ≤ outputNormalized data ∧ outputNormalized data ≤ 1)
    ∧ (0 ≤ inputNormalized data ∧ inputNormalized data ≤ 1) := by
  have havg : 0 ≤ byteAverage data := by
    unfold byteAverage
    apply div_nonneg
    · apply List.sum_nonneg
      intro x hx
      obtain ⟨b, _, rfl⟩ := List.mem_map.mp hx
      positivity
    · exact Nat.cast_nonneg _
  have hlow : (0 : ℚ) ≤ min 1 (byteAverage data / 128) := by
    apply le_min
    · norm_num
    · positivity
  have hhigh : min 1 (byteAverage data / 128) ≤ 1 := min_le_left _ _
  exact ⟨⟨hlow, hhigh⟩, ⟨hlow, hhigh⟩⟩

/-- Witness for C5: a concrete two-bin sample. -/
theorem normalized_volume_unit_range_witness :
    (0 ≤ outputNormalized [0, 255] ∧ outputNormalized [0, 255] ≤ 1)
    ∧ (0 ≤ inputNormalized [0, 255] ∧ inputNormalized [0, 255] ≤ 1) :=
  normalized_volume_unit_range [0, 255] (by decide)

/-- C6 counterexample: once the track is non-live the monitor tick returns
without writing the store, so the reported volume stays at its last
sampled value (here one half) instead of reaching 0 within one sampling
interval; no further tick is scheduled either. -/
theorem monitor_stop_keeps_last_volume :
    (monitorOutput [0] { live := false, volume := 1/2 }).1.volume = 1/2
    ∧ (monitorOutput [0] { live := false, volume := 1/2 }).2 = false
    ∧ (monitorInput [0] { live := false, volume := 1/2 }).1.volume = 1/2
    ∧ (monitorInput [0] { live := false, volume := 1/2 }).2 = false
    ∧ (1 : ℚ)/2 ≠ 0 :=
  ⟨rfl, rfl, rfl, rfl, by norm_num⟩

/-- C6 amended: when the monitored track's ready-state is non-live, both
monitors stop sampling — the tick performs no store write and schedules no
further tick — leaving the reported volume at its last sampled value. -/
theorem monitor_noop_when_not_live
    (sample : List (Fin 256)) (s : MonitorState) (hdead : s.live = false) :
    monitorOutput sample s = (s, false) ∧ monitorInput sample s = (s, false) := by
  simp [monitorOutput, monitorInput, hdead]

/-- Witness for the amended C6: a dead track with a residual volume. -/
theorem monitor_noop_when_not_live_witness :
    monitorOutput [0] { live := false, volume := 1/3 }
        = ({ live := false, volume := 1/3 }, false)
    ∧ monitorInput [0] { live := false, volume := 1/3 }
        = ({ live := false, volume := 1/3 }, false) :=
  monitor_noop_when_not_live [0] _ rfl

/-- C3: an incoming payload that is invalid JSON, lacks a `type` field, or
carries an unrecognized `type` value leaves the hook state — store
included — entirely unchanged (and the total handler throws nothing). -/
theorem unrecognized_payload_no_mutation
    (inp : DispatchInput) (h : HookState)
    (hbad : inp.payload = none
      ∨ (∃ m, inp.payload = some m ∧ m.msgType = none)
      ∨ (∃ m t, inp.payload = some m ∧ m.msgType = some t ∧
          t ∉ recognizedTypes)) :
    handleDataMessage inp h = h := by
  rcases hbad with hb | ⟨m, hm, ht⟩ | ⟨m, t, hm, ht, hnot⟩
  · simp [handleDataMessage, hb]
  · simp [handleDataMessage, hm, ht]
  · simp only [recognizedTypes, List.mem_cons, List.mem_singleton, not_or] at hnot
    obtain ⟨h1, h2, h3, h4, h5, h6, h7, h8, h9, _⟩ := hnot
    simp [handleDataMessage, hm, ht, h1, h2, h3, h4, h5, h6, h7, h8, h9]

/-- Witness for C3: the scenario message whose type is `foo.bar`. -/
theorem unrecognized_payload_no_mutation_witness :
    handleDataMessage ⟨some ({ msgType := some ("foo.bar") }), "w", 0⟩
      initialHookState = initialHookState :=
  unrecognized_payload_no_mutation _ _
    (Or.inr (Or.inr ⟨_, _, rfl, rfl, by decide⟩))

/-- C4: a `tool.executing`, `tool.completed` or `tool.error` message whose
`call_id` matches no existing record leaves the store's toolCalls list
unchanged — no record is created and nothing is thrown. -/
theorem tool_update_unknown_id_noop
    (inp : DispatchInput) (m : AgentMessage) (t : String) (h : HookState)
    (hm : inp.payload = some m) (ht : m.msgType = some t)
    (htool : t = "tool.executing" ∨ t = "tool.completed" ∨ t = "tool.error")
    (hid : ∀ tc ∈ h.store.toolCalls, tc.id ≠ m.callId) :
    (handleDataMessage inp h).store.toolCalls = h.store.toolCalls := by
  have hmap : ∀ u : ToolCallUpdate,
      (updateToolCall m.callId u h.store).toolCalls = h.store.toolCalls := by
    intro u
    simp only [updateToolCall]
    calc h.store.toolCalls.map
          (fun tc => if tc.id = m.callId then applyToolCallUpdate u tc else tc)
        = h.store.toolCalls.map id := by
          apply List.map_congr_left
          intro tc htc
          simp [hid tc htc]
      _ = h.store.toolCalls := List.map_id _
  rcases htool with h1 | h1 | h1 <;> subst h1 <;>
    simp [handleDataMessage, hm, ht, hmap]

/-- Witness for C4: a `tool.executing` for id `a` against a store whose
only record has id `b`. -/
theorem tool_update_unknown_id_noop_witness :
    (handleDataMessage
        ⟨some ({ msgType := some ("tool.executing"), callId := "a" }), "w", 0⟩
        { initialHookState with store :=
            { initialStore with toolCalls :=
                [{ id := "b", name := "f", status := ToolStatus.pending,
                   arguments := none, result := none, timestamp := 0 }] } }).store.toolCalls
      = [{ id := "b", name := "f", status := ToolStatus.pending,
           arguments := none, result := none, timestamp := 0 }] :=
  tool_update_unknown_id_noop _ _ _ _ rfl rfl (Or.inl rfl) (by decide)

/-- C10: `updateToolCall` never changes the number or relative order of
records — position `i` of the result is exactly position `i` of the input,
merged with the update when and only when its id matches — and, since
`addToolCall` appends unconditionally, two `tool.call` messages carrying
the same `call_id` produce two distinct records, both of which a later
status event for that id updates. -/
theorem updateToolCall_pointwise_duplicates :
    (∀ (st : Store) (cid : String) (u : ToolCallUpdate),
      ((updateToolCall cid u st).toolCalls).length = st.toolCalls.length)
    ∧ (∀ (st : Store) (cid : String) (u : ToolCallUpdate) (i : Nat),
        ((updateToolCall cid u st).toolCalls)[i]? =
          (st.toolCalls[i]?).map
            (fun tc => if tc.id = cid then applyToolCallUpdate u tc else tc))
    ∧ ((runMessages
          [⟨some ({ msgType := some ("tool.call"), callId := "a", name := "f" }), "i1", 1⟩,
           ⟨some ({ msgType := some ("tool.call"), callId := "a", name := "f" }), "i2", 2⟩,
           ⟨some ({ msgType := some ("tool.executing"), callId := "a" }), "i3", 3⟩]
          initialHookState).store.toolCalls.map
            (fun tc => (tc.id, tc.status)) =
        [("a", ToolStatus.executing), ("a", ToolStatus.executing)]) := by
  refine ⟨?_, ?_, ?_⟩
  · intro st cid u
    simp [updateToolCall]
  · intro st cid u i
    simp [updateToolCall]
  · rfl

/-- C7 counterexample: `transcript.user` then `transcript.assistant`
handled within the same millisecond (both `Date.now()` readings are 1000)
append the two entries in order, but with equal — not strictly
increasing — timestamps. -/
theorem transcript_same_millisecond_equal_timestamps :
    ((runMessages
        [⟨some ({ msgType := some ("transcript.user"), text := "hi" }), "m1", 1000⟩,
         ⟨some ({ msgType := some ("transcript.assistant"), text := "hello" }), "m2", 1000⟩]
        initialHookState).store.messages.map (fun m => (m.role, m.timestamp)))
      = [(Role.user, 1000), (Role.assistant, 1000)]
    ∧ ¬ (1000 < 1000) :=
  ⟨rfl, by norm_num⟩

/-- C7 amended: processing `transcript.user{text:"hi"}` then
`transcript.assistant{text:"hello"}` appends exactly two entries, in order
with role `user` first, each stamped with the clock reading at its
processing time; the timestamps are non-decreasing whenever the clock is
(and strictly increasing only when the clock advances between the two
messages). -/
theorem transcript_appends_in_order
    (h : HookState) (id1 id2 : String) (t1 t2 : Nat) (hmono : t1 ≤ t2) :
    (runMessages
        [⟨some ({ msgType := some ("transcript.user"), text := "hi" }), id1, t1⟩,
         ⟨some ({ msgType := some ("transcript.assistant"), text := "hello" }), id2, t2⟩]
        h).store.messages
      = h.store.messages ++
        [{ id := id1, role := Role.user, content := "hi", timestamp := t1 },
         { id := id2, role := Role.assistant, content := "hello", timestamp := t2 }]
    ∧ t1 ≤ t2 := by
  refine ⟨?_, hmono⟩
  simp [runMessages, handleDataMessage, addMessage]

/-- Witness for the amended C7: concrete ids and advancing clock. -/
theorem transcript_appends_in_order_witness :
    (runMessages
        [⟨some ({ msgType := some ("transcript.user"), text := "hi" }), "m1", 1⟩,
         ⟨some ({ msgType := some ("transcript.assistant"), text := "hello" }), "m2", 2⟩]
        initialHookState).store.messages
      = initialHookState.store.messages ++
        [{ id := "m1", role := Role.user, content := "hi", timestamp := 1 },
         { id := "m2", role := Role.assistant, content := "hello", timestamp := 2 }]
    ∧ 1 ≤ 2 :=
  transcript_appends_in_order initialHookState "m1" "m2" 1 2 (by norm_num)

/-- A tool-lifecycle status event for a given call id: the three message
kinds that mutate an existing record's status. -/
inductive ToolLifecycleEvent
  | executing
  | completed (result : Option String)
  | failed (err : Option String)
deriving DecidableEq

/-- The wire message carrying a tool-lifecycle event for call id `cid`. -/
def ToolLifecycleEvent.wireMessage (cid : String) :
    ToolLifecycleEvent → AgentMessage
  | ToolLifecycleEvent.executing =>
      { msgType := some ("tool.executing"), callId := cid }
  | ToolLifecycleEvent.completed r =>
      { msgType := some ("tool.completed"), callId := cid, result := r }
  | ToolLifecycleEvent.failed e =>
      { msgType := some ("tool.error"), callId := cid, errorVal := e }

/-- The update object the dispatcher builds for each lifecycle event. -/
def ToolLifecycleEvent.updateObj : ToolLifecycleEvent → ToolCallUpdate
  | ToolLifecycleEvent.executing =>
      { newStatus := some ToolStatus.executing }
  | ToolLifecycleEvent.completed r =>
      { newStatus := some ToolStatus.completed, newResult := some r }
  | ToolLifecycleEvent.failed e =>
      { newStatus := some ToolStatus.error, newResult := some e }

/-- The status a lifecycle event carries. -/
def ToolLifecycleEvent.finalStatus : ToolLifecycleEvent → ToolStatus
  | ToolLifecycleEvent.executing => ToolStatus.executing
  | ToolLifecycleEvent.completed _ => ToolStatus.completed
  | ToolLifecycleEvent.failed _ => ToolStatus.error

lemma handle_toolEvent (e : ToolLifecycleEvent) (cid fid : String) (now : Nat)
    (h : HookState) :
    handleDataMessage ⟨some (e.wireMessage cid), fid, now⟩ h
      = { h with store := updateToolCall cid e.updateObj h.store } := by
  cases e <;>
    simp [ToolLifecycleEvent.wireMessage, ToolLifecycleEvent.updateObj,
      handleDataMessage]

lemma applyUpdate_toolEvent (e : ToolLifecycleEvent) (tc : ToolCall) :
    (applyToolCallUpdate e.updateObj tc).id = tc.id
    ∧ (applyToolCallUpdate e.updateObj tc).status = e.finalStatus := by
  cases e <;>
    simp [ToolLifecycleEvent.updateObj, ToolLifecycleEvent.finalStatus,
      applyToolCallUpdate]

lemma updateToolCall_singleton (tc : ToolCall) (cid : String)
    (u : ToolCallUpdate) (st : Store) (hid : tc.id = cid)
    (hl : st.toolCalls = [tc]) :
    (updateToolCall cid u st).toolCalls = [applyToolCallUpdate u tc] := by
  simp [updateToolCall, hl, hid]

/-- C1 counterexample: the sequence `tool.call(a)`, `tool.completed(a)`,
`tool.executing(a)` ends with the record's status `executing`: the
backward transition completed to executing is applied, not rejected or
ignored, so the final status is not that of the last valid forward
transition (`completed`). -/
theorem backward_transition_applied :
    ((runMessages
        [⟨some ({ msgType := some ("tool.call"), callId := "a", name := "f" }), "i1", 1⟩,
         ⟨some ({ msgType := some ("tool.completed"), callId := "a", result := some ("ok") }), "i2", 2⟩,
         ⟨some ({ msgType := some ("tool.executing"), callId := "a" }), "i3", 3⟩]
        initialHookState).store.toolCalls.map (fun tc => tc.status))
      = [ToolStatus.executing]
    ∧ ToolStatus.executing ≠ ToolStatus.completed :=
  ⟨rfl, by decide⟩

/-- C1 amended: `updateToolCall` applies a status event unconditionally,
so for a store holding exactly one record with the referenced call id, the
final recorded status after any sequence of tool-lifecycle events equals
the status carried by the LAST event applied — last writer wins — whether
or not that event is a forward transition. -/
theorem tool_status_last_event_wins
    (pre : List ToolLifecycleEvent) (elast : ToolLifecycleEvent)
    (tc : ToolCall) (cid : String) (h : HookState)
    (hid : tc.id = cid) (hl : h.store.toolCalls = [tc]) :
    ((runMessages ((pre ++ [elast]).map
        (fun e => ⟨some (e.wireMessage cid), "x", 0⟩)) h).store.toolCalls).map
      (fun r => r.status)
      = [elast.finalStatus] := by
  induction pre generalizing tc h with
  | nil =>
    simp only [List.nil_append, List.map_cons, List.map_nil, runMessages,
      List.foldl_cons, List.foldl_nil]
    rw [handle_toolEvent]
    simp [updateToolCall_singleton tc cid _ _ hid hl,
      (applyUpdate_toolEvent elast tc).2]
  | cons e rest ih =>
    simp only [List.cons_append, List.map_cons, runMessages, List.foldl_cons]
    rw [handle_toolEvent]
    exact ih (applyToolCallUpdate e.updateObj tc)
      { h with store := updateToolCall cid e.updateObj h.store }
      (by rw [(applyUpdate_toolEvent e tc).1]; exact hid)
      (updateToolCall_singleton tc cid _ _ hid hl)

/-- Witness for the amended C1: a backward sequence — completed then
executing — ends with status `executing`. -/
theorem tool_status_last_event_wins_witness :
    ((runMessages
        (([ToolLifecycleEvent.completed (some ("ok"))] ++
          [ToolLifecycleEvent.executing]).map
          (fun e => ⟨some (e.wireMessage "a"), "x", 0⟩))
        { initialHookState with store :=
            { initialStore with toolCalls :=
                [{ id := "a", name := "f", status := ToolStatus.pending,
                   arguments := none, result := none,
                   timestamp := 0 }] } }).store.toolCalls).map
      (fun r => r.status)
      = [ToolStatus.executing] :=
  tool_status_last_event_wins [ToolLifecycleEvent.completed (some ("ok"))]
    ToolLifecycleEvent.executing
    { id := "a", name := "f", status := ToolStatus.pending,
      arguments := none, result := none, timestamp := 0 }
    "a" _ rfl rfl

lemma readinessStep_signaled_mono (s : ReadyState) (i : ReadyInput)
    (hs : s.signaled = true) : ((readinessStep s i).1).signaled = true := by
  simp [readinessStep, hs]

lemma fireCount_zero_of_signaled :
    ∀ (inputs : List ReadyInput) (s : ReadyState), s.signaled = true →
      fireCount s inputs = 0 := by
  intro inputs
  induction inputs with
  | nil => intro s hs; rfl
  | cons i rest ih =>
    intro s hs
    have hnf : (readinessStep s i).2 = false := by simp [readinessStep, hs]
    have hss : ((readinessStep s i).1).signaled = true :=
      readinessStep_signaled_mono s i hs
    simp [fireCount, hnf, ih _ hss]

lemma fireCount_append (s : ReadyState) (xs ys : List ReadyInput) :
    fireCount s (xs ++ ys) = fireCount s xs + fireCount (runReady s xs) ys := by
  induction xs generalizing s with
  | nil => simp [fireCount, runReady]
  | cons x rest ih => simp [fireCount, runReady, ih, Nat.add_assoc]

lemma unready_run_no_fire :
    ∀ (xs : List ReadyInput) (s : ReadyState),
      (∀ j ∈ xs, isReady j = false) →
      fireCount s xs = 0 ∧ (runReady s xs).signaled = s.signaled := by
  intro xs
  induction xs with
  | nil => intro s _; exact ⟨rfl, rfl⟩
  | cons x rest ih =>
    intro s hx
    have hx0 : isReady x = false := hx x (List.mem_cons_self x rest)
    have hs1 : ((readinessStep s x).1).signaled = s.signaled := by
      simp [readinessStep, hx0]
    have hs2 : (readinessStep s x).2 = false := by
      simp [readinessStep, hx0]
    obtain ⟨h1, h2⟩ := ih (readinessStep s x).1
      (fun j hj => hx j (List.mem_cons_of_mem _ hj))
    refine ⟨?_, ?_⟩
    · simp [fireCount, hs2, h1]
    · simpa [runReady, hs1] using h2

/-- C8: over any run of the readiness effect starting at page load, with
any prefix of condition changes during which the three readiness
conditions never hold simultaneously, followed by the first instant they
all hold, followed by arbitrary later flips: the one-time
`voiceAgentReady` event is dispatched exactly once over the whole run, it
is dispatched at that first ready instant, and the signaled flag is
monotonic — once set, no step clears it. -/
theorem readiness_event_fires_once
    (pre post : List ReadyInput) (i : ReadyInput)
    (hpre : ∀ j ∈ pre, isReady j = false) (hi : isReady i = true) :
    fireCount initialReadyState (pre ++ i :: post) = 1
    ∧ (readinessStep (runReady initialReadyState pre) i).2 = true
    ∧ (∀ (s : ReadyState) (j : ReadyInput), s.signaled = true →
        ((readinessStep s j).1).signaled = true) := by
  obtain ⟨hc0, hsig⟩ := unready_run_no_fire pre initialReadyState hpre
  have hsig' : (runReady initialReadyState pre).signaled = false := by
    rw [hsig]; rfl
  have hfire : (readinessStep (runReady initialReadyState pre) i).2 = true := by
    simp [readinessStep, hi, hsig']
  have hafter :
      ((readinessStep (runReady initialReadyState pre) i).1).signaled = true := by
    simp [readinessStep, hi, hsig']
  refine ⟨?_, hfire, fun s j hs => readinessStep_signaled_mono s j hs⟩
  rw [fireCount_append, hc0]
  simp [fireCount, hfire, fireCount_zero_of_signaled post _ hafter]

/-- Witness for C8: the conditions flip false, then all hold, then flip
true to false to true twice more; the event fires exactly once. -/
theorem readiness_event_fires_once_witness :
    fireCount initialReadyState
      ([⟨false, true, true⟩] ++ ⟨true, true, true⟩ ::
        [⟨true, false, true⟩, ⟨true, true, true⟩,
         ⟨false, false, false⟩, ⟨true, true, true⟩]) = 1 :=
  (readiness_event_fires_once [⟨false, true, true⟩]
    [⟨true, false, true⟩, ⟨true, true, true⟩,
     ⟨false, false, false⟩, ⟨true, true, true⟩]
    ⟨true, true, true⟩ (by decide) (by decide)).1

end SynrgVoice
